import Mathlib

/-!
Verification of the PFAPI numeric core: a shallow embedding, in Lean 4, of
the element admittance models (src/pfapi/utils/Elements.py), the admittance
matrix builder and Kron reducer (src/pfapi/utils/AdmittanceMatrix.py), the
busbar topology index (src/pfapi/core/Network.py) and the synchronizing
power calculator (src/pfapi/core/synchro_power_coefficients.py).

Conventions of the embedding:
* Python floats are modelled by the real numbers, complex values by the
  complex numbers; exact real arithmetic stands in for IEEE arithmetic.
* NumPy arrays are modelled as total functions from natural-number indices,
  with the shape carried separately; entries outside the shape are never
  read by the embedded algorithms.
* Python code that can raise is modelled with Option or Except: a returned
  none or Except.error marks the raising control path.
* np.inf is not representable in the real numbers; a function of the source
  that can produce np.inf (ThreeWindingTransformer.Y_ab and friends) returns
  an Option, with none standing for the infinite value.
* Real-number equality tests of the source (if Z == 0, if S_rat != base_mva)
  are modelled with classical decidability.
-/

noncomputable section

open Complex (I)
open scoped Classical ComplexConjugate

/-! ### Element admittance models, from src/pfapi/utils/Elements.py.
The PowerFactory data_object handle, names and type tags that play no part
in the numeric formulas are dropped; every numeric field is kept. -/

/-- A line (class Line, Elements.py lines 59-108). busbar_from and busbar_to
are optional: the builder skips a line whose terminal is None. -/
structure Line where
  busbar_from : Option String
  busbar_to : Option String
  rated_voltage : ℝ
  length : ℝ
  resistance : ℝ
  reactance : ℝ
  susceptance_effective : ℝ
  susceptance_ground : ℝ
  parallel : ℕ
  base_mva : ℝ

namespace Line

/-- Line.calculate_impedance: per-unit impedance r + j x on the given base. -/
def calculate_impedance (l : Line) (base_mva : ℝ) : ℂ :=
  ((l.resistance / (l.rated_voltage ^ 2 / base_mva) : ℝ) : ℂ) +
    ((l.reactance / (l.rated_voltage ^ 2 / base_mva) : ℝ) : ℂ) * I

/-- Line.calculate_admittance: Y = 1 / Z, with a computed impedance of
exactly zero replaced by the float 1e-12 before inversion. -/
def calculate_admittance (l : Line) (base_mva : ℝ) : ℂ :=
  1 / (if l.calculate_impedance base_mva = 0 then ((1e-12 : ℝ) : ℂ)
       else l.calculate_impedance base_mva)

/-- Line.calculate_shunt_admittance: j (b_eff + b_ground) 1e-6 per-unit. -/
def calculate_shunt_admittance (l : Line) (base_mva : ℝ) : ℂ :=
  I * (((l.susceptance_effective * (1e-6 : ℝ)) / (base_mva / l.rated_voltage ^ 2) +
        (l.susceptance_ground * (1e-6 : ℝ)) / (base_mva / l.rated_voltage ^ 2) : ℝ) : ℂ)

/-- The attribute self.Y_line, computed in Line.__init__ on the line's own base. -/
def Y_line (l : Line) : ℂ := l.calculate_admittance l.base_mva

/-- The attribute self.Y_shunt, computed in Line.__init__. -/
def Y_shunt (l : Line) : ℂ := l.calculate_shunt_admittance l.base_mva

end Line

/-- A synchronous generator (class SynchronousGenerator, Elements.py 13-57). -/
structure SynchronousGenerator where
  name : String
  busbar_to : Option String
  S_rat : ℝ
  U_rat : ℝ
  r_a : ℝ
  x_as : ℝ
  x_d1 : ℝ
  base_mva : ℝ

namespace SynchronousGenerator

/-- SynchronousGenerator.calculate_impedance: machine per-unit impedance
r_a + j (x_as + x_d1) scaled to ohms by U_rat^2 / S_rat. -/
def calculate_impedance (g : SynchronousGenerator) : ℂ :=
  (((g.r_a : ℝ) : ℂ) + ((g.x_as + g.x_d1 : ℝ) : ℂ) * I) *
    (((g.U_rat ^ 2 / g.S_rat : ℝ) : ℂ))

/-- SynchronousGenerator.calculate_admittance: 1 / Z in siemens. (Python
raises ZeroDivisionError at Z = 0; there the model gives 0.) -/
def calculate_admittance (g : SynchronousGenerator) : ℂ :=
  1 / g.calculate_impedance

/-- The attribute self.Z_base = U_rat^2 / base_mva. -/
def Z_base (g : SynchronousGenerator) : ℝ := g.U_rat ^ 2 / g.base_mva

/-- The attribute self.Y_base = 1 / Z_base. -/
def Y_base (g : SynchronousGenerator) : ℝ := 1 / g.Z_base

/-- The attribute self.Y = Y_units / Y_base, the generator admittance on the
system base, computed in __init__. -/
def Y (g : SynchronousGenerator) : ℂ := g.calculate_admittance / ((g.Y_base : ℝ) : ℂ)

end SynchronousGenerator

/-- A switch (class Switch, Elements.py 110-141). -/
structure Switch where
  busbar_from : Option String
  busbar_to : Option String
  voltage_level : ℝ
  on_resistance : ℝ
  S_base : ℝ

namespace Switch

/-- Switch.calculate_impedance: the on-resistance, in ohms. -/
def calculate_impedance (s : Switch) : ℝ := s.on_resistance

/-- Switch.calculate_admittance: Y = 1 / Z with no clamping; Python raises
ZeroDivisionError when the on-resistance is exactly 0, modelled as none. -/
def calculate_admittance (s : Switch) : Option ℝ :=
  if s.calculate_impedance = 0 then none else some (1 / s.calculate_impedance)

/-- The attribute self.Z_base = voltage_level^2 / S_base. -/
def Z_base (s : Switch) : ℝ := s.voltage_level ^ 2 / s.S_base

/-- The attribute self.Y_base = 1 / Z_base. -/
def Y_base (s : Switch) : ℝ := 1 / s.Z_base

/-- The attribute self.Y = Y_units / Y_base. none when __init__ raised. -/
def Y (s : Switch) : Option ℝ := s.calculate_admittance.map (fun y => y / s.Y_base)

end Switch

/-- The four admittance matrix entries a two-winding transformer stamps,
the dict returned by get_admittance_matrix_elements. -/
structure TwtMatrixEntries where
  Y_aa : ℂ
  Y_bb : ℂ
  Y_ab : ℂ
  Y_ba : ℂ

/-- A two-winding transformer (class TwoWindingTransformer, Elements.py
143-294). -/
structure TwoWindingTransformer where
  busbar_from : Option String
  busbar_to : Option String
  U_nominal_HV : ℝ
  U_nominal_LV : ℝ
  parallel : ℕ
  S_rat : ℝ
  U_k : ℝ
  U_k_r : ℝ
  U_rated_HV : ℝ
  U_rated_LV : ℝ
  phase_shift : ℝ
  tap_position : ℝ
  voltage_per_tap : ℝ
  base_mva : ℝ

namespace TwoWindingTransformer

/-- TwoWindingTransformer.calculate_impedance. none models the ValueError
raised when Z_pu^2 < R_pu^2; otherwise X_pu = sqrt(Z_pu^2 - R_pu^2), and
both parts are rescaled by base_mva / S_rat when S_rat differs from the
base. -/
def calculate_impedance (t : TwoWindingTransformer) (base_mva : ℝ) : Option ℂ :=
  if (t.U_k / 100) ^ 2 < (t.U_k_r / 100) ^ 2 then none
  else
    some (if t.S_rat ≠ base_mva then
      (((t.U_k_r / 100) * (base_mva / t.S_rat) : ℝ) : ℂ) +
        ((Real.sqrt ((t.U_k / 100) ^ 2 - (t.U_k_r / 100) ^ 2) * (base_mva / t.S_rat) : ℝ) : ℂ) * I
    else
      (((t.U_k_r / 100 : ℝ)) : ℂ) +
        ((Real.sqrt ((t.U_k / 100) ^ 2 - (t.U_k_r / 100) ^ 2) : ℝ) : ℂ) * I)

/-- TwoWindingTransformer.calculate_admittance: 1 / Z, a zero impedance
replaced by the float 1e-12 first; none propagates the ValueError. -/
def calculate_admittance (t : TwoWindingTransformer) (base_mva : ℝ) : Option ℂ :=
  (t.calculate_impedance base_mva).map
    (fun z => 1 / (if z = 0 then ((1e-12 : ℝ) : ℂ) else z))

/-- TwoWindingTransformer.calculate_off_nominal_tap_ratio: the real ratio
(U_rated_HV / U_rated_LV) / (U_nominal_HV / U_nominal_LV). The code after
the return statement (tap position, phase shift) is dead and not modelled. -/
def calculate_off_nominal_tap_ratio (t : TwoWindingTransformer) : ℝ :=
  (t.U_rated_HV / t.U_rated_LV) / (t.U_nominal_HV / t.U_nominal_LV)

/-- TwoWindingTransformer.get_admittance_matrix_elements: the asymmetric
pi-equivalent stamp Y_aa = Y/|a|^2, Y_bb = Y, Y_ab = -Y/conj(a),
Y_ba = -Y/a; none propagates the ValueError of calculate_impedance. -/
def get_admittance_matrix_elements (t : TwoWindingTransformer) (base_mva : ℝ) :
    Option TwtMatrixEntries :=
  (t.calculate_admittance base_mva).map (fun Y =>
    { Y_aa := Y / (((|t.calculate_off_nominal_tap_ratio| ^ 2 : ℝ)) : ℂ)
      Y_bb := Y
      Y_ab := -Y / conj ((t.calculate_off_nominal_tap_ratio : ℝ) : ℂ)
      Y_ba := -Y / ((t.calculate_off_nominal_tap_ratio : ℝ) : ℂ) })

end TwoWindingTransformer

/-- A three-winding transformer (class ThreeWindingTransformer, Elements.py
296-390), modelled as a delta between its HV, MV and LV buses. -/
structure ThreeWindingTransformer where
  bus_HV : String
  bus_MV : String
  bus_LV : String
  u_k_percent_AB : ℝ
  u_k_percent_BC : ℝ
  u_k_percent_CA : ℝ
  S_nom_AB : ℝ
  S_nom_BC : ℝ
  S_nom_CA : ℝ
  base_mva : ℝ

namespace ThreeWindingTransformer

/-- ThreeWindingTransformer.Z_ab: per-unit impedance on a 1 MVA base. -/
def Z_ab (t : ThreeWindingTransformer) : ℝ := (t.u_k_percent_AB / 100) * (1 / t.S_nom_AB)

/-- ThreeWindingTransformer.Z_bc. -/
def Z_bc (t : ThreeWindingTransformer) : ℝ := (t.u_k_percent_BC / 100) * (1 / t.S_nom_BC)

/-- ThreeWindingTransformer.Z_ca. -/
def Z_ca (t : ThreeWindingTransformer) : ℝ := (t.u_k_percent_CA / 100) * (1 / t.S_nom_CA)

/-- ThreeWindingTransformer.Y_ab: 1 / Z_ab when Z_ab is not zero, np.inf
otherwise. The infinite value is modelled by none. -/
def Y_ab (t : ThreeWindingTransformer) : Option ℝ :=
  if t.Z_ab ≠ 0 then some (1 / t.Z_ab) else none

/-- ThreeWindingTransformer.Y_bc. -/
def Y_bc (t : ThreeWindingTransformer) : Option ℝ :=
  if t.Z_bc ≠ 0 then some (1 / t.Z_bc) else none

/-- ThreeWindingTransformer.Y_ca. -/
def Y_ca (t : ThreeWindingTransformer) : Option ℝ :=
  if t.Z_ca ≠ 0 then some (1 / t.Z_ca) else none

/-- ThreeWindingTransformer.delta_admittance_matrix: the 3x3 delta stamp
(diagonal = sum of the two adjacent branch admittances, off-diagonal =
negative branch admittance). In the source an infinite branch admittance is
stamped as np.inf; the real-number model has no infinity, so the matrix is
only produced (some) when all three branch admittances are finite. -/
def delta_admittance_matrix (t : ThreeWindingTransformer) : Option (ℕ → ℕ → ℂ) :=
  match t.Y_ab, t.Y_bc, t.Y_ca with
  | some yab, some ybc, some yca =>
    some (fun i j =>
      if i = 0 ∧ j = 0 then ((yab + yca : ℝ) : ℂ)
      else if i = 1 ∧ j = 1 then ((yab + ybc : ℝ) : ℂ)
      else if i = 2 ∧ j = 2 then ((ybc + yca : ℝ) : ℂ)
      else if (i = 0 ∧ j = 1) ∨ (i = 1 ∧ j = 0) then ((-yab : ℝ) : ℂ)
      else if (i = 1 ∧ j = 2) ∨ (i = 2 ∧ j = 1) then ((-ybc : ℝ) : ℂ)
      else if (i = 0 ∧ j = 2) ∨ (i = 2 ∧ j = 0) then ((-yca : ℝ) : ℂ)
      else 0)
  | _, _, _ => none

end ThreeWindingTransformer

/-- A load (class Load, Elements.py 493-515). -/
structure Load where
  busbar_to : String
  P : ℝ
  Q : ℝ
  voltage : ℝ
  base_mva : ℝ

namespace Load

/-- Load.calculate_power: S = P/base - j Q/base. -/
def calculate_power (l : Load) (base_mva : ℝ) : ℂ :=
  ((l.P / base_mva : ℝ) : ℂ) - ((l.Q / base_mva : ℝ) : ℂ) * I

/-- Load.calculate_admittance: Y = S / voltage^2. -/
def calculate_admittance (l : Load) (base_mva : ℝ) : ℂ :=
  l.calculate_power base_mva / (((l.voltage : ℝ) : ℂ) ^ 2)

/-- The attribute self.Y, computed in __init__ on the load's base. -/
def Y (l : Load) : ℂ := l.calculate_admittance l.base_mva

end Load

/-- A common impedance (class CommonImpedance, Elements.py 517-560). -/
structure CommonImpedance where
  bus_from : String
  bus_to : String
  R : ℝ
  X : ℝ
  U_nom_HV : ℝ
  U_nom_LV : ℝ
  S_rat : ℝ
  tap_setting : ℝ
  phase_shift : ℝ
  base_mva : ℝ

namespace CommonImpedance

/-- CommonImpedance.calculate_impedance: R and X, each clamped to 1e-12 when
exactly zero, scaled from element per-unit to ohms by S_rat / U_nom_HV^2. -/
def calculate_impedance (c : CommonImpedance) : ℂ :=
  ((((if c.R = 0 then (1e-12 : ℝ) else c.R) : ℝ) : ℂ) +
      (((if c.X = 0 then (1e-12 : ℝ) else c.X) : ℝ) : ℂ) * I) *
    ((c.S_rat : ℝ) : ℂ) / (((c.U_nom_HV ^ 2 : ℝ)) : ℂ)

/-- CommonImpedance.calculate_admittance: 1 / Z. -/
def calculate_admittance (c : CommonImpedance) : ℂ := 1 / c.calculate_impedance

/-- The attribute self.Z_base = U_nom_HV^2 / base_mva. -/
def Z_base (c : CommonImpedance) : ℝ := c.U_nom_HV ^ 2 / c.base_mva

/-- The attribute self.Y_base = 1 / Z_base. -/
def Y_base (c : CommonImpedance) : ℝ := 1 / c.Z_base

/-- The attribute self.Y = Y_units / Y_base. -/
def Y (c : CommonImpedance) : ℂ := c.calculate_admittance / ((c.Y_base : ℝ) : ℂ)

end CommonImpedance

/-- An external grid (class ExternalGrid, Elements.py 562-592). -/
structure ExternalGrid where
  busbar_to : String
  U_rat : ℝ
  S_sc : ℝ
  c_factor : ℝ
  R_X : ℝ
  base_mva : ℝ

namespace ExternalGrid

/-- ExternalGrid.calculate_impedance: short-circuit impedance split into
R and X through the R/X ratio. -/
def calculate_impedance (e : ExternalGrid) : ℂ :=
  (((e.U_rat ^ 2 / e.S_sc) * (e.R_X / (1 + e.R_X)) * e.c_factor : ℝ) : ℂ) +
    (((e.U_rat ^ 2 / e.S_sc) * (1 / Real.sqrt (1 + e.R_X ^ 2)) * e.c_factor : ℝ) : ℂ) * I

/-- ExternalGrid.calculate_admittance: 1 / Z. -/
def calculate_admittance (e : ExternalGrid) : ℂ := 1 / e.calculate_impedance

/-- The attribute self.Y = calculate_admittance() / Y_base with
Y_base = 1 / (U_rat^2 / base_mva). -/
def Y (e : ExternalGrid) : ℂ :=
  e.calculate_admittance / (((1 / (e.U_rat ^ 2 / e.base_mva) : ℝ)) : ℂ)

end ExternalGrid

/-- An AC voltage source (class VoltageSourceAC, Elements.py 594-624). -/
structure VoltageSourceAC where
  busbar_to : String
  U_rat : ℝ
  R : ℝ
  X : ℝ
  base_mva : ℝ

namespace VoltageSourceAC

/-- VoltageSourceAC.calculate_impedance: R + j X with each zero part clamped
to 1e-12. -/
def calculate_impedance (v : VoltageSourceAC) : ℂ :=
  (((if v.R = 0 then (1e-12 : ℝ) else v.R) : ℝ) : ℂ) +
    (((if v.X = 0 then (1e-12 : ℝ) else v.X) : ℝ) : ℂ) * I

/-- VoltageSourceAC.calculate_admittance: 1 / Z. -/
def calculate_admittance (v : VoltageSourceAC) : ℂ := 1 / v.calculate_impedance

/-- The attribute self.Y = calculate_admittance() / Y_base with
Y_base = 1 / (U_rat^2 / base_mva). -/
def Y (v : VoltageSourceAC) : ℂ :=
  v.calculate_admittance / (((1 / (v.U_rat ^ 2 / v.base_mva) : ℝ)) : ℂ)

end VoltageSourceAC

/-- What a call of ShuntElement.calculate_admittance does: return a complex
per-unit admittance, fall through and return Python None (the R_L_C_Rp
branch, a bare pass), or raise ValueError (the unrecognized-tag branch). -/
inductive ShuntOutcome where
  | val : ℂ → ShuntOutcome
  | retNone : ShuntOutcome
  | raiseValueError : ShuntOutcome
deriving DecidableEq

/-- A shunt element (class ShuntElement, Elements.py 399-491) with the
PowerFactory attributes its admittance formulas read. The tag shunt_type is
the integer PowerFactory shtype value; ShuntType gives R_L_C = 0, R_L = 1,
C = 2, R_L_C_Rp = 3, R_L_C1_C2_Rp = 4. -/
structure ShuntElement where
  bus_to : String
  U_rat : ℝ
  shunt_type : ℕ
  base_mva : ℝ
  bcap : ℝ
  xrea : ℝ
  rrea : ℝ
  ncapa : ℕ
  gparac : ℝ
  fres : ℝ
  c1 : ℝ
  c2 : ℝ
  rpara : ℝ

namespace ShuntElement

/-- ShuntElement.calculate_admittance, one branch per recognized topology
tag; the R_L_C_Rp branch is a bare pass (the function returns None), and an
unrecognized tag raises ValueError. -/
def calculate_admittance (s : ShuntElement) (base_mva : ℝ) : ShuntOutcome :=
  if s.shunt_type = 0 then
    let G : ℝ := s.rrea / (s.rrea ^ 2 + s.xrea ^ 2)
    let Yv : ℂ := ((G : ℝ) : ℂ) + ((s.bcap * (1e-6 : ℝ) : ℝ) : ℂ) * I
    let Y_base : ℝ := base_mva / s.U_rat ^ 2
    ShuntOutcome.val (Yv / ((Y_base : ℝ) : ℂ))
  else if s.shunt_type = 1 then
    let G : ℝ := s.rrea / (s.rrea ^ 2 + s.xrea ^ 2)
    let Y_base : ℝ := base_mva / s.U_rat ^ 2
    ShuntOutcome.val (((G : ℝ) : ℂ) / ((Y_base : ℝ) : ℂ))
  else if s.shunt_type = 2 then
    let Yv : ℂ := ((s.bcap * (1e-6 : ℝ) : ℝ) : ℂ) * I + ((s.gparac * (1e-6 : ℝ) : ℝ) : ℂ)
    let Y_base : ℝ := base_mva / s.U_rat ^ 2
    ShuntOutcome.val (Yv / ((Y_base : ℝ) : ℂ))
  else if s.shunt_type = 3 then
    ShuntOutcome.retNone
  else if s.shunt_type = 4 then
    let omega : ℝ := 2 * Real.pi * s.fres
    let B1 : ℝ := omega * s.c1 * (1e-6 : ℝ)
    let B2 : ℝ := omega * s.c2 * (1e-6 : ℝ)
    let Z_branch : ℂ := ((s.rrea : ℝ) : ℂ) + ((s.xrea : ℝ) : ℂ) * I - I / ((B1 : ℝ) : ℂ)
    let Y_branch : ℂ := 1 / Z_branch
    let Y_p : ℂ := 1 / ((s.rpara : ℝ) : ℂ)
    let Y_c2 : ℂ := I * ((B2 : ℝ) : ℂ)
    let Yv : ℂ := (Y_branch + Y_p) * Y_c2 / (Y_branch + Y_p + Y_c2)
    let Y_base : ℝ := base_mva / s.U_rat ^ 2
    ShuntOutcome.val (Yv / ((Y_base : ℝ) : ℂ))
  else
    ShuntOutcome.raiseValueError

/-- The attribute self.Y, computed in __init__ on the element's base. -/
def Y (s : ShuntElement) : ShuntOutcome := s.calculate_admittance s.base_mva

end ShuntElement

/-! ### Network topology index, from Network.read_busbars
(src/pfapi/core/Network.py lines 102-108). The loop enumerates the filtered
busbars and executes busbar_name_to_index[busbar_name] = idx for each; a
duplicate name is logged as a warning but the assignment still runs. -/

/-- One dictionary assignment busbar_name_to_index[name] = idx. -/
def insert_busbar (m : String → Option ℕ) (name : String) (idx : ℕ) :
    String → Option ℕ :=
  fun n => if n = name then some idx else m n

/-- The enumeration loop of Network.read_busbars, started at counter i. -/
def read_busbars_from : ℕ → List String → (String → Option ℕ) → (String → Option ℕ)
  | _, [], m => m
  | i, name :: rest, m => read_busbars_from (i + 1) rest (insert_busbar m name i)

/-- The dictionary busbar_name_to_index that Network.read_busbars builds
from the filtered busbar names, in their filtered order. -/
def busbar_name_to_index (names : List String) : String → Option ℕ :=
  read_busbars_from 0 names (fun _ => none)

theorem read_busbars_from_not_mem (names : List String) (n : String)
    (i : ℕ) (m : String → Option ℕ) (h : n ∉ names) :
    read_busbars_from i names m n = m n := by
  induction names generalizing i m with
  | nil => rfl
  | cons x xs ih =>
    simp only [List.mem_cons, not_or] at h
    rw [read_busbars_from, ih _ _ h.2, insert_busbar, if_neg h.1]

theorem read_busbars_from_append (xs ys : List String) (i : ℕ)
    (m : String → Option ℕ) :
    read_busbars_from i (xs ++ ys) m =
      read_busbars_from (i + xs.length) ys (read_busbars_from i xs m) := by
  induction xs generalizing i m with
  | nil => simp [read_busbars_from]
  | cons x xs ih =>
    simp only [List.cons_append, read_busbars_from, List.length_cons, List.append_eq]
    rw [ih, show i + 1 + xs.length = i + (xs.length + 1) by omega]


/-- Claim C6 counterexample: inserting the duplicated name A twice maps A to
index 1, the second occurrence, not to index 0, the first: duplicate
insertion is not idempotent and the first occurrence does not win. -/
theorem c6_duplicate_name_counterexample :
    busbar_name_to_index ["A", "A"] "A" = some 1 ∧
      busbar_name_to_index ["A", "A"] "A" ≠ some 0 := by
  constructor
  · rfl
  · intro h
    simp [busbar_name_to_index, read_busbars_from, insert_busbar] at h

/-- Claim C6 (corrected): inserting a duplicate busbar name into the
topology index overwrites the mapping entry (the loop of
Network.read_busbars logs a warning but performs the assignment anyway), so
index(name) refers to the last busbar inserted under that name: for a name
whose last occurrence is at position xs.length, the built index maps it to
xs.length. -/
theorem c6_duplicate_name_last_wins (xs ys : List String) (n : String)
    (h : n ∉ ys) :
    busbar_name_to_index (xs ++ n :: ys) n = some xs.length := by
  rw [busbar_name_to_index, read_busbars_from_append, read_busbars_from,
      read_busbars_from_not_mem _ _ _ _ h, insert_busbar]
  simp

/-- Claim C6 witness: the amended statement applied at the concrete input
["A"] ++ "A" :: []. -/
theorem c6_duplicate_name_last_wins_witness :
    ("A" ∉ ([] : List String)) ∧ busbar_name_to_index ["A", "A"] "A" = some 1 :=
  ⟨by simp, c6_duplicate_name_last_wins ["A"] [] "A" (by simp)⟩

/-! ### Generator-bus ordering of reduce_matrix
(src/pfapi/utils/AdmittanceMatrix.py lines 147-152). -/

/-- The list gen_bus_names of reduce_matrix: the terminal bus name of every
synchronous machine that has one, in machine traversal order. -/
def gen_bus_names (machines : List SynchronousGenerator) : List String :=
  machines.filterMap (fun gen => gen.busbar_to)

/-- The 0/1 mask is_gen_bus of reduce_matrix, over the iteration order of
busbar_name_to_index, which is the busbar insertion order. -/
def is_gen_bus (busNames : List String) (machines : List SynchronousGenerator) :
    List Bool :=
  busNames.map (fun bus => (gen_bus_names machines).contains bus)

/-- np.where(mask == 1)[0]: the positions of the set entries of the mask. -/
def np_where_eq_one (mask : List Bool) : List ℕ :=
  (List.range mask.length).filter (fun i => mask.getD i false)

/-- The array generator_bus_indices of reduce_matrix. -/
def generator_bus_indices (busNames : List String)
    (machines : List SynchronousGenerator) : List ℕ :=
  np_where_eq_one (is_gen_bus busNames machines)

/-- The list generator_bus_names_order of reduce_matrix: the busbar names at
the generator bus indices. -/
def generator_bus_names_order (busNames : List String)
    (machines : List SynchronousGenerator) : List String :=
  (generator_bus_indices busNames machines).map (fun i => busNames.getD i "")

theorem np_where_cons (b : Bool) (bs : List Bool) :
    np_where_eq_one (b :: bs) =
      (if b then [0] else []) ++ (np_where_eq_one bs).map Nat.succ := by
  have hcomp : ((fun i => (b :: bs).getD i false) ∘ Nat.succ)
      = fun i => bs.getD i false := funext fun i => List.getD_cons_succ ..
  simp only [np_where_eq_one, List.length_cons, List.range_succ_eq_map,
    List.filter_cons, List.getD_cons_zero, List.filter_map, hcomp]
  cases b <;> simp

theorem np_where_map_getD {α : Type} (l : List α) (p : α → Bool) (d : α) :
    (np_where_eq_one (l.map p)).map (fun i => l.getD i d) = l.filter p := by
  induction l with
  | nil => rfl
  | cons x xs ih =>
    rw [List.map_cons, np_where_cons, List.map_append, List.map_map,
        show ((fun i => List.getD (x :: xs) i d) ∘ Nat.succ) = fun i => xs.getD i d
          from funext fun i => List.getD_cons_succ ..,
        ih, List.filter_cons]
    cases hx : p x <;> simp

/-- Claim C7 (corrected): the generator-bus-name ordering that reduce_matrix
returns lists the generator buses in bus-index order (the order of the
topology index), not in machine traversal order: it equals the busbar name
list filtered to the names that carry a generator. -/
theorem c7_generator_order_bus_index (busNames : List String)
    (machines : List SynchronousGenerator) :
    generator_bus_names_order busNames machines =
      busNames.filter (fun bus => (gen_bus_names machines).contains bus) := by
  unfold generator_bus_names_order generator_bus_indices is_gen_bus
  exact np_where_map_getD busNames _ ""

/-- A machine on bus B listed first: concrete input of the C7 counterexample. -/
def c7_gen_on_B : SynchronousGenerator :=
  { name := "G1", busbar_to := some "B", S_rat := 1, U_rat := 1,
    r_a := 1, x_as := 0, x_d1 := 0, base_mva := 1 }

/-- A machine on bus A listed second: concrete input of the C7 counterexample. -/
def c7_gen_on_A : SynchronousGenerator :=
  { name := "G2", busbar_to := some "A", S_rat := 1, U_rat := 1,
    r_a := 1, x_as := 0, x_d1 := 0, base_mva := 1 }

/-- Claim C7 counterexample: with buses [A, B] and the machines listed as
[G1 on B, G2 on A], the machine traversal order of the terminal buses is
[B, A], but reduce_matrix orders the reduced matrix labels [A, B] - the bus
index order, not the generator traversal order. -/
theorem c7_generator_order_counterexample :
    generator_bus_names_order ["A", "B"] [c7_gen_on_B, c7_gen_on_A] = ["A", "B"] ∧
      gen_bus_names [c7_gen_on_B, c7_gen_on_A] = ["B", "A"] ∧
      (["A", "B"] : List String) ≠ ["B", "A"] := by
  refine ⟨rfl, rfl, by decide⟩

/-- A switch whose on-resistance is exactly zero: concrete input for C4. -/
def c4_switch_zero : Switch :=
  { busbar_from := some "A", busbar_to := some "B", voltage_level := 100,
    on_resistance := 0, S_base := 100 }

/-- A three-winding transformer whose AB pairwise impedance is zero:
concrete input for C4. -/
def c4_twt3_zero : ThreeWindingTransformer :=
  { bus_HV := "A", bus_MV := "B", bus_LV := "C", u_k_percent_AB := 0,
    u_k_percent_BC := 10, u_k_percent_CA := 10, S_nom_AB := 100,
    S_nom_BC := 100, S_nom_CA := 100, base_mva := 100 }

/-- A line whose computed impedance is exactly zero: concrete input for C4. -/
def c4_line_zero : Line :=
  { busbar_from := some "A", busbar_to := some "B", rated_voltage := 100,
    length := 1, resistance := 0, reactance := 0, susceptance_effective := 0,
    susceptance_ground := 0, parallel := 1, base_mva := 100 }

/-- Claim C4 counterexample: not every element variant clamps a zero
impedance. A switch with on_resistance 0 divides by zero and raises
(modelled none), and a three-winding transformer with a zero pairwise
impedance produces the non-finite branch admittance np.inf (modelled none):
neither yields the claimed finite clamped admittance. -/
theorem c4_zero_impedance_counterexample :
    Switch.calculate_admittance c4_switch_zero = none ∧
      ThreeWindingTransformer.Y_ab c4_twt3_zero = none := by
  constructor
  · simp [Switch.calculate_admittance, Switch.calculate_impedance, c4_switch_zero]
  · simp [ThreeWindingTransformer.Y_ab, ThreeWindingTransformer.Z_ab, c4_twt3_zero]

/-- Claim C4 (corrected): the 1e-12 zero-impedance clamp exists only in some
variants. A line (and, identically, a two-winding transformer) replaces a
computed impedance of exactly zero by 1e-12 as a whole before inverting; a
switch performs no clamping, so a zero on-resistance raises
ZeroDivisionError; a three-winding transformer branch with zero pairwise
impedance yields the infinite admittance np.inf, so the stamped admittance
is not always finite. -/
theorem c4_zero_impedance_amended :
    (∀ (l : Line) (b : ℝ), l.calculate_impedance b = 0 →
        l.calculate_admittance b = 1 / ((1e-12 : ℝ) : ℂ)) ∧
      (∀ s : Switch, s.on_resistance = 0 → s.calculate_admittance = none) ∧
      (∀ t : ThreeWindingTransformer, t.Z_ab = 0 → t.Y_ab = none) := by
  refine ⟨fun l b h => ?_, fun s h => ?_, fun t h => ?_⟩
  · rw [Line.calculate_admittance, if_pos h]
  · simp [Switch.calculate_admittance, Switch.calculate_impedance, h]
  · simp [ThreeWindingTransformer.Y_ab, h]

/-- Claim C4 witness: the amended statement applied to the concrete line,
switch and three-winding transformer with zero impedances. -/
theorem c4_zero_impedance_amended_witness :
    Line.calculate_admittance c4_line_zero 100 = 1 / ((1e-12 : ℝ) : ℂ) ∧
      Switch.calculate_admittance c4_switch_zero = none ∧
      ThreeWindingTransformer.Y_ab c4_twt3_zero = none := by
  refine ⟨c4_zero_impedance_amended.1 c4_line_zero 100 ?_,
    c4_zero_impedance_amended.2.1 c4_switch_zero rfl,
    c4_zero_impedance_amended.2.2 c4_twt3_zero ?_⟩
  · simp [Line.calculate_impedance, c4_line_zero]
  · simp [ThreeWindingTransformer.Z_ab, c4_twt3_zero]

/-- A shunt element tagged R_L_C_Rp (3): concrete input for C5. -/
def c5_shunt_rlcrp : ShuntElement :=
  { bus_to := "A", U_rat := 1, shunt_type := 3, base_mva := 1, bcap := 0,
    xrea := 0, rrea := 0, ncapa := 0, gparac := 0, fres := 0, c1 := 0,
    c2 := 0, rpara := 0 }

/-- A shunt element with an unrecognized tag 7: concrete input for C5. -/
def c5_shunt_unknown : ShuntElement :=
  { bus_to := "A", U_rat := 1, shunt_type := 7, base_mva := 1, bcap := 0,
    xrea := 0, rrea := 0, ncapa := 0, gparac := 0, fres := 0, c1 := 0,
    c2 := 0, rpara := 0 }

/-- Claim C5 counterexample: for the tag R_L_C_Rp the branch is a bare pass,
so calculate_admittance returns Python None - a non-admittance value - and
does not raise. -/
theorem c5_shunt_rlcrp_counterexample :
    ShuntElement.calculate_admittance c5_shunt_rlcrp 1 = ShuntOutcome.retNone ∧
      ShuntElement.calculate_admittance c5_shunt_rlcrp 1 ≠
        ShuntOutcome.raiseValueError := by
  refine ⟨rfl, fun h => ?_⟩
  rw [show ShuntElement.calculate_admittance c5_shunt_rlcrp 1 = ShuntOutcome.retNone
      from rfl] at h
  exact ShuntOutcome.noConfusion h

/-- Claim C5 (corrected): calculate_admittance raises ValueError for every
unrecognized topology tag, but for the R_L_C_Rp tag it silently returns
None instead of raising. -/
theorem c5_shunt_topology_amended :
    (∀ (s : ShuntElement) (b : ℝ), s.shunt_type = 3 →
        s.calculate_admittance b = ShuntOutcome.retNone) ∧
      (∀ (s : ShuntElement) (b : ℝ), 4 < s.shunt_type →
        s.calculate_admittance b = ShuntOutcome.raiseValueError) := by
  constructor
  · intro s b h
    simp [ShuntElement.calculate_admittance, h]
  · intro s b h
    have h0 : ¬s.shunt_type = 0 := by omega
    have h1 : ¬s.shunt_type = 1 := by omega
    have h2 : ¬s.shunt_type = 2 := by omega
    have h3 : ¬s.shunt_type = 3 := by omega
    have h4 : ¬s.shunt_type = 4 := by omega
    simp [ShuntElement.calculate_admittance, h0, h1, h2, h3, h4]

/-- Claim C5 witness: the amended statement applied to the concrete
R_L_C_Rp shunt and the concrete unknown-tag shunt. -/
theorem c5_shunt_topology_amended_witness :
    ShuntElement.calculate_admittance c5_shunt_rlcrp 1 = ShuntOutcome.retNone ∧
      ShuntElement.calculate_admittance c5_shunt_unknown 1 =
        ShuntOutcome.raiseValueError :=
  ⟨c5_shunt_topology_amended.1 c5_shunt_rlcrp 1 rfl,
    c5_shunt_topology_amended.2 c5_shunt_unknown 1 (by decide)⟩

/-- Claim C9 (confirmed): for a two-winding transformer whose off-nominal
tap ratio equals 1 (rated voltage ratio equal to nominal voltage ratio) and
whose phase shift is zero, the four entries of
get_admittance_matrix_elements reduce to the symmetric plain-branch stamp
Y_aa = Y_bb = Y and Y_ab = Y_ba = -Y, Y the series admittance. -/
theorem c9_unity_tap_symmetric_stamp (t : TwoWindingTransformer) (b : ℝ)
    (hphase : t.phase_shift = 0)
    (hratio : t.calculate_off_nominal_tap_ratio = 1) :
    t.get_admittance_matrix_elements b =
      (t.calculate_admittance b).map (fun Y =>
        { Y_aa := Y, Y_bb := Y, Y_ab := -Y, Y_ba := -Y }) := by
  unfold TwoWindingTransformer.get_admittance_matrix_elements
  rw [hratio]
  simp

/-- A 110/20 kV transformer on 110/20 kV buses: unity tap ratio, zero phase
shift; concrete input for the C9 witness. -/
def c9_transformer : TwoWindingTransformer :=
  { busbar_from := some "A", busbar_to := some "B", U_nominal_HV := 110,
    U_nominal_LV := 20, parallel := 1, S_rat := 50, U_k := 10, U_k_r := 6,
    U_rated_HV := 110, U_rated_LV := 20, phase_shift := 0, tap_position := 0,
    voltage_per_tap := 0, base_mva := 100 }

/-- Claim C9 witness: the theorem applied to the concrete unity-ratio
transformer. -/
theorem c9_unity_tap_symmetric_stamp_witness :
    TwoWindingTransformer.get_admittance_matrix_elements c9_transformer 100 =
      (TwoWindingTransformer.calculate_admittance c9_transformer 100).map (fun Y =>
        { Y_aa := Y, Y_bb := Y, Y_ab := -Y, Y_ba := -Y }) :=
  c9_unity_tap_symmetric_stamp c9_transformer 100 rfl (by
    norm_num [TwoWindingTransformer.calculate_off_nominal_tap_ratio, c9_transformer])

/-! ### Admittance matrix builder, from build_admittance_matrix
(src/pfapi/utils/AdmittanceMatrix.py lines 12-134). The NumPy matrix is
modelled as a total function on natural-number indices (entries outside the
busbar range are never touched), and each element loop as a recursion that
aborts, like the Python function, at the first raised lookup error. -/

/-- The in-place update Y_bus[i, j] += v. -/
def addAt (M : ℕ → ℕ → ℂ) (i j : ℕ) (v : ℂ) : ℕ → ℕ → ℂ :=
  fun a b => if a = i ∧ b = j then M a b + v else M a b

/-- Sequencing of two assembly stages: the second runs on the matrix the
first produced; a raised error aborts the remainder of the build. -/
def andThen (r : Except String (ℕ → ℕ → ℂ))
    (f : (ℕ → ℕ → ℂ) → Except String (ℕ → ℕ → ℂ)) : Except String (ℕ → ℕ → ℂ) :=
  match r with
  | Except.ok M => f M
  | Except.error e => Except.error e

/-- The network data build_admittance_matrix and reduce_matrix read: the
filtered busbar names (index = position), the name-to-index dictionary, the
system base and one list per element variant, exactly the fields of class
Network that the assembly touches. -/
structure Network where
  busbars : List String
  busbar_name_to_index : String → Option ℕ
  base_mva : ℝ
  lines : List Line
  synchronous_machines : List SynchronousGenerator
  switchs : List Switch
  two_winding_transformers : List TwoWindingTransformer
  three_winding_transformers : List ThreeWindingTransformer
  loads : List Load
  common_impedances : List CommonImpedance
  external_grids : List ExternalGrid
  voltage_sources : List VoltageSourceAC
  shunts : List ShuntElement

/-- The line loop: a line with a None terminal is skipped (continue); a
terminal name missing from the dictionary raises KeyError; otherwise the
line and half its shunt are stamped, scaled by the parallel count when that
count exceeds 1. -/
def stamp_lines : List Line → (String → Option ℕ) → (ℕ → ℕ → ℂ) →
    Except String (ℕ → ℕ → ℂ)
  | [], _, M => Except.ok M
  | l :: rest, idx, M =>
    match l.busbar_from, l.busbar_to with
    | none, _ => stamp_lines rest idx M
    | some _, none => stamp_lines rest idx M
    | some bf, some bt =>
      match idx bf, idx bt with
      | some i, some j =>
        let Y : ℂ := if 1 < l.parallel then l.Y_line * (l.parallel : ℂ) else l.Y_line
        let Ysh : ℂ := if 1 < l.parallel then l.Y_shunt * (l.parallel : ℂ) else l.Y_shunt
        stamp_lines rest idx
          (addAt (addAt (addAt (addAt M i j (-Y)) j i (-Y)) i i (Y + Ysh / 2))
            j j (Y + Ysh / 2))
      | _, _ => Except.error "KeyError"

/-- The generator loop: a diagonal-only stamp of generator.Y at the terminal
bus; a missing mapping (or a None terminal, which is no dictionary key)
raises KeyError. -/
def stamp_generators : List SynchronousGenerator → (String → Option ℕ) →
    (ℕ → ℕ → ℂ) → Except String (ℕ → ℕ → ℂ)
  | [], _, M => Except.ok M
  | g :: rest, idx, M =>
    match g.busbar_to with
    | none => Except.error "KeyError"
    | some b =>
      match idx b with
      | some i => stamp_generators rest idx (addAt M i i g.Y)
      | none => Except.error "KeyError"

/-- The switch loop: the symmetric branch stamp of switch.Y. A switch whose
on-resistance was exactly zero never reaches assembly in Python (its
construction raised ZeroDivisionError); the model surfaces that raise
here. -/
def stamp_switches : List Switch → (String → Option ℕ) → (ℕ → ℕ → ℂ) →
    Except String (ℕ → ℕ → ℂ)
  | [], _, M => Except.ok M
  | s :: rest, idx, M =>
    match s.busbar_from, s.busbar_to with
    | none, _ => stamp_switches rest idx M
    | some _, none => stamp_switches rest idx M
    | some bf, some bt =>
      match idx bf, idx bt with
      | some i, some j =>
        match s.Y with
        | some y =>
          let Y : ℂ := ((y : ℝ) : ℂ)
          stamp_switches rest idx
            (addAt (addAt (addAt (addAt M i j (-Y)) j i (-Y)) i i Y) j j Y)
        | none => Except.error "ZeroDivisionError"
      | _, _ => Except.error "KeyError"

/-- The two-winding transformer loop: the four asymmetric entries of
get_admittance_matrix_elements on the network base, each scaled by the
parallel count; a ValueError of the impedance formula aborts. -/
def stamp_two_winding : List TwoWindingTransformer → (String → Option ℕ) → ℝ →
    (ℕ → ℕ → ℂ) → Except String (ℕ → ℕ → ℂ)
  | [], _, _, M => Except.ok M
  | t :: rest, idx, base_mva, M =>
    match t.busbar_from, t.busbar_to with
    | none, _ => stamp_two_winding rest idx base_mva M
    | some _, none => stamp_two_winding rest idx base_mva M
    | some bf, some bt =>
      match idx bf, idx bt with
      | some i, some j =>
        match t.get_admittance_matrix_elements base_mva with
        | some e =>
          stamp_two_winding rest idx base_mva
            (addAt (addAt (addAt (addAt M i i (e.Y_aa * (t.parallel : ℂ)))
                j j (e.Y_bb * (t.parallel : ℂ)))
                i j (e.Y_ab * (t.parallel : ℂ)))
                j i (e.Y_ba * (t.parallel : ℂ)))
        | none => Except.error "ValueError"
      | _, _ => Except.error "KeyError"

/-- The three-winding transformer loop: the 3x3 delta stamp into the HV, MV
and LV rows and columns. A delta with an infinite branch admittance is not
representable over the reals (Python would stamp np.inf); the model reports
it as a failed assembly. -/
def stamp_three_winding : List ThreeWindingTransformer → (String → Option ℕ) →
    (ℕ → ℕ → ℂ) → Except String (ℕ → ℕ → ℂ)
  | [], _, M => Except.ok M
  | t :: rest, idx, M =>
    match idx t.bus_HV, idx t.bus_MV, idx t.bus_LV with
    | some iH, some iM, some iL =>
      match t.delta_admittance_matrix with
      | some D =>
        stamp_three_winding rest idx
          (addAt (addAt (addAt (addAt (addAt (addAt (addAt (addAt (addAt
            M iH iH (D 0 0)) iH iM (D 0 1)) iH iL (D 0 2))
              iM iH (D 1 0)) iM iM (D 1 1)) iM iL (D 1 2))
              iL iH (D 2 0)) iL iM (D 2 1)) iL iL (D 2 2))
      | none => Except.error "NonFiniteAdmittance"
    | _, _, _ => Except.error "KeyError"

/-- The load loop: a diagonal-only stamp of load.Y. -/
def stamp_loads : List Load → (String → Option ℕ) → (ℕ → ℕ → ℂ) →
    Except String (ℕ → ℕ → ℂ)
  | [], _, M => Except.ok M
  | l :: rest, idx, M =>
    match idx l.busbar_to with
    | some i => stamp_loads rest idx (addAt M i i l.Y)
    | none => Except.error "KeyError"

/-- The common impedance loop: the symmetric branch stamp of the element's
system-base admittance. -/
def stamp_common_impedances : List CommonImpedance → (String → Option ℕ) →
    (ℕ → ℕ → ℂ) → Except String (ℕ → ℕ → ℂ)
  | [], _, M => Except.ok M
  | c :: rest, idx, M =>
    match idx c.bus_from, idx c.bus_to with
    | some i, some j =>
      stamp_common_impedances rest idx
        (addAt (addAt (addAt (addAt M i i c.Y) j j c.Y) i j (-c.Y)) j i (-c.Y))
    | _, _ => Except.error "KeyError"

/-- The external grid loop: a diagonal-only stamp. -/
def stamp_external_grids : List ExternalGrid → (String → Option ℕ) →
    (ℕ → ℕ → ℂ) → Except String (ℕ → ℕ → ℂ)
  | [], _, M => Except.ok M
  | e :: rest, idx, M =>
    match idx e.busbar_to with
    | some i => stamp_external_grids rest idx (addAt M i i e.Y)
    | none => Except.error "KeyError"

/-- The AC voltage source loop: a diagonal-only stamp. -/
def stamp_voltage_sources : List VoltageSourceAC → (String → Option ℕ) →
    (ℕ → ℕ → ℂ) → Except String (ℕ → ℕ → ℂ)
  | [], _, M => Except.ok M
  | v :: rest, idx, M =>
    match idx v.busbar_to with
    | some i => stamp_voltage_sources rest idx (addAt M i i v.Y)
    | none => Except.error "KeyError"

/-- The shunt loop: a diagonal-only stamp of shunt.Y. A shunt whose
admittance is Python None (the R_L_C_Rp topology) makes the += raise
TypeError; one whose construction raised ValueError never reaches assembly,
and the model surfaces that raise here. -/
def stamp_shunts : List ShuntElement → (String → Option ℕ) → (ℕ → ℕ → ℂ) →
    Except String (ℕ → ℕ → ℂ)
  | [], _, M => Except.ok M
  | s :: rest, idx, M =>
    match idx s.bus_to with
    | some i =>
      match s.Y with
      | ShuntOutcome.val y => stamp_shunts rest idx (addAt M i i y)
      | ShuntOutcome.retNone => Except.error "TypeError"
      | ShuntOutcome.raiseValueError => Except.error "ValueError"
    | none => Except.error "KeyError"

/-- build_admittance_matrix: starting from the zero matrix, stamp the
element lists in the order of the source: lines, generators, switches,
two-winding transformers, three-winding transformers, loads, common
impedances, external grids, voltage sources, shunts. -/
def build_admittance_matrix (net : Network) : Except String (ℕ → ℕ → ℂ) :=
  andThen (stamp_lines net.lines net.busbar_name_to_index (fun _ _ => 0)) fun M1 =>
  andThen (stamp_generators net.synchronous_machines net.busbar_name_to_index M1) fun M2 =>
  andThen (stamp_switches net.switchs net.busbar_name_to_index M2) fun M3 =>
  andThen (stamp_two_winding net.two_winding_transformers net.busbar_name_to_index
    net.base_mva M3) fun M4 =>
  andThen (stamp_three_winding net.three_winding_transformers net.busbar_name_to_index
    M4) fun M5 =>
  andThen (stamp_loads net.loads net.busbar_name_to_index M5) fun M6 =>
  andThen (stamp_common_impedances net.common_impedances net.busbar_name_to_index
    M6) fun M7 =>
  andThen (stamp_external_grids net.external_grids net.busbar_name_to_index M7) fun M8 =>
  andThen (stamp_voltage_sources net.voltage_sources net.busbar_name_to_index M8) fun M9 =>
  stamp_shunts net.shunts net.busbar_name_to_index M9

/-- The (i, j) entry of a built matrix, when the build succeeded. -/
def except_entry (r : Except String (ℕ → ℕ → ℂ)) (i j : ℕ) : Option ℂ :=
  match r with
  | Except.ok M => some (M i j)
  | Except.error _ => none

/-- The line of the C3 scenario: R = 0 ohm, X = 10 ohm, no susceptance, one
circuit, rated 100 kV, on base_mva = 100. -/
def c3_line : Line :=
  { busbar_from := some "A", busbar_to := some "B", rated_voltage := 100,
    length := 1, resistance := 0, reactance := 10, susceptance_effective := 0,
    susceptance_ground := 0, parallel := 1, base_mva := 100 }

/-- The two-bus network of the C3 scenario: buses A and B joined by the
single line, no other elements. -/
def c3_network : Network :=
  { busbars := ["A", "B"],
    busbar_name_to_index := busbar_name_to_index ["A", "B"],
    base_mva := 100, lines := [c3_line], synchronous_machines := [],
    switchs := [], two_winding_transformers := [],
    three_winding_transformers := [], loads := [], common_impedances := [],
    external_grids := [], voltage_sources := [], shunts := [] }

theorem c3_line_impedance :
    Line.calculate_impedance c3_line 100 = ((1 / 10 : ℝ) : ℂ) * I := by
  simp only [Line.calculate_impedance, c3_line]
  norm_num

theorem c3_line_Y_line : Line.Y_line c3_line = -10 * I := by
  rw [Line.Y_line, show c3_line.base_mva = 100 from rfl, Line.calculate_admittance,
    c3_line_impedance, if_neg (by simp)]
  rw [one_div, mul_inv, Complex.inv_I]
  push_cast
  ring_nf

theorem c3_line_Y_shunt : Line.Y_shunt c3_line = 0 := by
  simp [Line.Y_shunt, Line.calculate_shunt_admittance, c3_line]

theorem c3_build_eq :
    build_admittance_matrix c3_network =
      Except.ok (addAt (addAt (addAt (addAt (fun _ _ => 0)
        0 1 (-(Line.Y_line c3_line))) 1 0 (-(Line.Y_line c3_line)))
        0 0 (Line.Y_line c3_line + Line.Y_shunt c3_line / 2))
        1 1 (Line.Y_line c3_line + Line.Y_shunt c3_line / 2)) := rfl

/-- Claim C3 (corrected): in the C3 scenario the per-unit line admittance is
1/(j 0.1) = -10j, and the assembled 2x2 Y-bus has both diagonal entries
equal to -10j and both off-diagonal entries equal to +10j (the diagonal
carries the branch admittance itself, the off-diagonal its negation). -/
theorem c3_line_ybus_amended :
    Line.Y_line c3_line = -10 * I ∧
      except_entry (build_admittance_matrix c3_network) 0 0 = some (-10 * I) ∧
      except_entry (build_admittance_matrix c3_network) 1 1 = some (-10 * I) ∧
      except_entry (build_admittance_matrix c3_network) 0 1 = some (10 * I) ∧
      except_entry (build_admittance_matrix c3_network) 1 0 = some (10 * I) := by
  refine ⟨c3_line_Y_line, ?_⟩
  rw [c3_build_eq]
  simp only [except_entry, addAt, c3_line_Y_line, c3_line_Y_shunt]
  norm_num

/-- Claim C3 counterexample: the claim asserts diagonal entries +10j and
off-diagonal entries -10j; the assembled matrix has Y[0,0] = -10j, which
differs from +10j, and Y[0,1] = +10j, which differs from -10j. -/
theorem c3_line_ybus_counterexample :
    except_entry (build_admittance_matrix c3_network) 0 0 = some (-10 * I) ∧
      except_entry (build_admittance_matrix c3_network) 0 1 = some (10 * I) ∧
      (-10 * I : ℂ) ≠ 10 * I ∧ (10 * I : ℂ) ≠ -10 * I := by
  refine ⟨?_, ?_, ?_, ?_⟩
  · rw [c3_build_eq]
    simp only [except_entry, addAt, c3_line_Y_line, c3_line_Y_shunt]
    norm_num
  · rw [c3_build_eq]
    simp only [except_entry, addAt, c3_line_Y_line, c3_line_Y_shunt]
    norm_num
  · intro h
    have := congrArg Complex.im h
    simp at this
    norm_num at this
  · intro h
    have := congrArg Complex.im h
    simp at this
    norm_num at this

theorem andThen_ok_iff (r : Except String (ℕ → ℕ → ℂ))
    (f : (ℕ → ℕ → ℂ) → Except String (ℕ → ℕ → ℂ)) (M : ℕ → ℕ → ℂ) :
    andThen r f = Except.ok M ↔
      ∃ M', r = Except.ok M' ∧ f M' = Except.ok M := by
  cases r with
  | ok a => simp [andThen]
  | error e => simp [andThen]

theorem stamp_loads_missing (ls : List Load) (idx : String → Option ℕ)
    (M0 : ℕ → ℕ → ℂ) (l : Load) (hl : l ∈ ls)
    (hmiss : idx l.busbar_to = none) :
    ∀ M, stamp_loads ls idx M0 ≠ Except.ok M := by
  induction ls generalizing M0 with
  | nil => cases hl
  | cons x rest ih =>
    intro M h
    rcases List.mem_cons.mp hl with rfl | hmem
    · rw [stamp_loads, hmiss] at h
      exact Except.noConfusion h
    · rw [stamp_loads] at h
      cases hx : idx x.busbar_to with
      | none => rw [hx] at h; exact Except.noConfusion h
      | some i => rw [hx] at h; exact ih (addAt M0 i i x.Y) hmem M h

/-- A load attached to bus B, which the topology index does not contain:
concrete input for C8. -/
def c8_load : Load := { busbar_to := "B", P := 1, Q := 0, voltage := 1, base_mva := 100 }

/-- A network whose only bus is A but whose only load sits on the unmapped
bus B: concrete input for C8. -/
def c8_network : Network :=
  { busbars := ["A"],
    busbar_name_to_index := busbar_name_to_index ["A"],
    base_mva := 100, lines := [], synchronous_machines := [], switchs := [],
    two_winding_transformers := [], three_winding_transformers := [],
    loads := [c8_load], common_impedances := [], external_grids := [],
    voltage_sources := [], shunts := [] }

/-- Claim C8 counterexample: an element (here a load) whose terminal bus
name is absent from the topology index is not skipped: the dictionary
lookup raises KeyError and the whole assembly fails. -/
theorem c8_missing_bus_counterexample :
    c8_network.busbar_name_to_index c8_load.busbar_to = none ∧
      build_admittance_matrix c8_network = Except.error "KeyError" :=
  ⟨rfl, rfl⟩

/-- Claim C8 (corrected): only lines are pre-filtered against the topology
index (in the converter layer); inside build_admittance_matrix a missing
bus mapping is fatal, not a skip: a network with a load on an unmapped bus
never assembles to any matrix. -/
theorem c8_missing_bus_fatal (net : Network) (l : Load) (hl : l ∈ net.loads)
    (hmiss : net.busbar_name_to_index l.busbar_to = none) :
    ∀ M, build_admittance_matrix net ≠ Except.ok M := by
  intro M h
  simp only [build_admittance_matrix, andThen_ok_iff] at h
  obtain ⟨M1, h1, M2, h2, M3, h3, M4, h4, M5, h5, M6, h6, M7, h7, M8, h8, M9, h9, h10⟩ := h
  exact stamp_loads_missing net.loads net.busbar_name_to_index M5 l hl hmiss M6 h6

/-- Claim C8 witness: the amended statement applied to the concrete
one-bus network with the load on the unmapped bus B, at the zero matrix. -/
theorem c8_missing_bus_fatal_witness :
    build_admittance_matrix c8_network ≠ Except.ok (fun _ _ => 0) :=
  c8_missing_bus_fatal c8_network c8_load (List.mem_singleton_self c8_load) rfl
    (fun _ _ => 0)

/-! ### Symmetry of the assembled Y-bus (claim C10). -/

/-- A matrix is symmetric when every entry equals its transpose entry. -/
def SymmM (M : ℕ → ℕ → ℂ) : Prop := ∀ a b, M a b = M b a

theorem addAt_apply (M : ℕ → ℕ → ℂ) (i j : ℕ) (v : ℂ) (a b : ℕ) :
    addAt M i j v a b = M a b + if a = i ∧ b = j then v else 0 := by
  simp only [addAt]
  split_ifs <;> simp

theorem twt_entries_Y_ab_eq_Y_ba (t : TwoWindingTransformer) (base_mva : ℝ)
    (e : TwtMatrixEntries)
    (h : t.get_admittance_matrix_elements base_mva = some e) :
    e.Y_ab = e.Y_ba := by
  unfold TwoWindingTransformer.get_admittance_matrix_elements at h
  rcases Option.map_eq_some'.mp h with ⟨Y, _, rfl⟩
  simp [Complex.conj_ofReal]

theorem delta_matrix_symm (t : ThreeWindingTransformer) (D : ℕ → ℕ → ℂ)
    (h : t.delta_admittance_matrix = some D) : ∀ i j, D i j = D j i := by
  unfold ThreeWindingTransformer.delta_admittance_matrix at h
  rcases hab : t.Y_ab with _ | yab
  · rw [hab] at h; exact absurd h (by simp)
  rw [hab] at h
  rcases hbc : t.Y_bc with _ | ybc
  · rw [hbc] at h; exact absurd h (by simp)
  rw [hbc] at h
  rcases hca : t.Y_ca with _ | yca
  · rw [hca] at h; exact absurd h (by simp)
  rw [hca] at h
  simp only [Option.some_inj] at h
  subst h
  intro i j
  rcases i with _ | _ | _ | i <;> rcases j with _ | _ | _ | j <;> simp

theorem symm_branch_stamp (M : ℕ → ℕ → ℂ) (i j : ℕ) (u v : ℂ) (hM : SymmM M) :
    SymmM (addAt (addAt (addAt (addAt M i j u) j i u) i i v) j j v) := by
  intro a b
  simp only [addAt_apply]
  rw [hM a b]
  try simp only [and_comm]
  try ring

theorem symm_diag_stamp (M : ℕ → ℕ → ℂ) (i : ℕ) (v : ℂ) (hM : SymmM M) :
    SymmM (addAt M i i v) := by
  intro a b
  simp only [addAt_apply]
  rw [hM a b]
  try simp only [and_comm]
  try ring

theorem symm_twt_stamp (M : ℕ → ℕ → ℂ) (i j : ℕ) (A B C : ℂ) (hM : SymmM M) :
    SymmM (addAt (addAt (addAt (addAt M i i A) j j B) i j C) j i C) := by
  intro a b
  simp only [addAt_apply]
  rw [hM a b]
  try simp only [and_comm]
  try ring

theorem symm_delta_stamp (M : ℕ → ℕ → ℂ) (iH iM iL : ℕ) (D : ℕ → ℕ → ℂ)
    (hD : ∀ x y, D x y = D y x) (hM : SymmM M) :
    SymmM (addAt (addAt (addAt (addAt (addAt (addAt (addAt (addAt (addAt
      M iH iH (D 0 0)) iH iM (D 0 1)) iH iL (D 0 2))
        iM iH (D 1 0)) iM iM (D 1 1)) iM iL (D 1 2))
        iL iH (D 2 0)) iL iM (D 2 1)) iL iL (D 2 2)) := by
  intro a b
  simp only [addAt_apply]
  rw [hM a b, hD 1 0, hD 2 0, hD 2 1]
  try simp only [and_comm]
  try ring

theorem stamp_lines_symm (ls : List Line) (idx : String → Option ℕ) :
    ∀ M M', SymmM M → stamp_lines ls idx M = Except.ok M' → SymmM M' := by
  induction ls with
  | nil =>
    intro M M' hM h
    obtain rfl := Except.ok.inj h
    exact hM
  | cons l rest ih =>
    intro M M' hM h
    rw [stamp_lines] at h
    split at h
    · exact ih M M' hM h
    · exact ih M M' hM h
    · split at h
      · exact ih _ M' (symm_branch_stamp M _ _ _ _ hM) h
      · exact Except.noConfusion h

theorem stamp_generators_symm (ls : List SynchronousGenerator)
    (idx : String → Option ℕ) :
    ∀ M M', SymmM M → stamp_generators ls idx M = Except.ok M' → SymmM M' := by
  induction ls with
  | nil =>
    intro M M' hM h
    obtain rfl := Except.ok.inj h
    exact hM
  | cons g rest ih =>
    intro M M' hM h
    rw [stamp_generators] at h
    split at h
    · exact Except.noConfusion h
    · split at h
      · exact ih _ M' (symm_diag_stamp M _ _ hM) h
      · exact Except.noConfusion h

theorem stamp_switches_symm (ls : List Switch) (idx : String → Option ℕ) :
    ∀ M M', SymmM M → stamp_switches ls idx M = Except.ok M' → SymmM M' := by
  induction ls with
  | nil =>
    intro M M' hM h
    obtain rfl := Except.ok.inj h
    exact hM
  | cons s rest ih =>
    intro M M' hM h
    rw [stamp_switches] at h
    split at h
    · exact ih M M' hM h
    · exact ih M M' hM h
    · split at h
      · split at h
        · exact ih _ M' (symm_branch_stamp M _ _ _ _ hM) h
        · exact Except.noConfusion h
      · exact Except.noConfusion h

theorem stamp_two_winding_symm (ls : List TwoWindingTransformer)
    (idx : String → Option ℕ) (base_mva : ℝ) :
    ∀ M M', SymmM M → stamp_two_winding ls idx base_mva M = Except.ok M' →
      SymmM M' := by
  induction ls with
  | nil =>
    intro M M' hM h
    obtain rfl := Except.ok.inj h
    exact hM
  | cons t rest ih =>
    intro M M' hM h
    rw [stamp_two_winding] at h
    split at h
    · exact ih M M' hM h
    · exact ih M M' hM h
    · split at h
      · split at h
        next e heq =>
          rw [twt_entries_Y_ab_eq_Y_ba _ _ _ heq] at h
          exact ih _ M' (symm_twt_stamp M _ _ _ _ _ hM) h
        next => exact Except.noConfusion h
      · exact Except.noConfusion h

theorem stamp_three_winding_symm (ls : List ThreeWindingTransformer)
    (idx : String → Option ℕ) :
    ∀ M M', SymmM M → stamp_three_winding ls idx M = Except.ok M' → SymmM M' := by
  induction ls with
  | nil =>
    intro M M' hM h
    obtain rfl := Except.ok.inj h
    exact hM
  | cons t rest ih =>
    intro M M' hM h
    rw [stamp_three_winding] at h
    split at h
    · split at h
      next D heq =>
        exact ih _ M' (symm_delta_stamp M _ _ _ D (delta_matrix_symm t D heq) hM) h
      next => exact Except.noConfusion h
    · exact Except.noConfusion h

theorem stamp_loads_symm (ls : List Load) (idx : String → Option ℕ) :
    ∀ M M', SymmM M → stamp_loads ls idx M = Except.ok M' → SymmM M' := by
  induction ls with
  | nil =>
    intro M M' hM h
    obtain rfl := Except.ok.inj h
    exact hM
  | cons l rest ih =>
    intro M M' hM h
    rw [stamp_loads] at h
    split at h
    · exact ih _ M' (symm_diag_stamp M _ _ hM) h
    · exact Except.noConfusion h

theorem stamp_common_impedances_symm (ls : List CommonImpedance)
    (idx : String → Option ℕ) :
    ∀ M M', SymmM M → stamp_common_impedances ls idx M = Except.ok M' →
      SymmM M' := by
  induction ls with
  | nil =>
    intro M M' hM h
    obtain rfl := Except.ok.inj h
    exact hM
  | cons c rest ih =>
    intro M M' hM h
    rw [stamp_common_impedances] at h
    split at h
    · exact ih _ M' (symm_twt_stamp M _ _ _ _ _ hM) h
    · exact Except.noConfusion h

theorem stamp_external_grids_symm (ls : List ExternalGrid)
    (idx : String → Option ℕ) :
    ∀ M M', SymmM M → stamp_external_grids ls idx M = Except.ok M' → SymmM M' := by
  induction ls with
  | nil =>
    intro M M' hM h
    obtain rfl := Except.ok.inj h
    exact hM
  | cons e rest ih =>
    intro M M' hM h
    rw [stamp_external_grids] at h
    split at h
    · exact ih _ M' (symm_diag_stamp M _ _ hM) h
    · exact Except.noConfusion h

theorem stamp_voltage_sources_symm (ls : List VoltageSourceAC)
    (idx : String → Option ℕ) :
    ∀ M M', SymmM M → stamp_voltage_sources ls idx M = Except.ok M' → SymmM M' := by
  induction ls with
  | nil =>
    intro M M' hM h
    obtain rfl := Except.ok.inj h
    exact hM
  | cons v rest ih =>
    intro M M' hM h
    rw [stamp_voltage_sources] at h
    split at h
    · exact ih _ M' (symm_diag_stamp M _ _ hM) h
    · exact Except.noConfusion h

theorem stamp_shunts_symm (ls : List ShuntElement) (idx : String → Option ℕ) :
    ∀ M M', SymmM M → stamp_shunts ls idx M = Except.ok M' → SymmM M' := by
  induction ls with
  | nil =>
    intro M M' hM h
    obtain rfl := Except.ok.inj h
    exact hM
  | cons s rest ih =>
    intro M M' hM h
    rw [stamp_shunts] at h
    split at h
    · split at h
      · exact ih _ M' (symm_diag_stamp M _ _ hM) h
      · exact Except.noConfusion h
      · exact Except.noConfusion h
    · exact Except.noConfusion h

/-- Claim C10 (confirmed): the off-nominal tap ratio computation is real, so
(1) the two stamped off-diagonal transformer entries coincide,
Y_ab = Y_ba; (2) phase_shift, tap_position and voltage_per_tap never affect
the stamped admittances; and (3) every Y-bus that build_admittance_matrix
assembles is symmetric: Y[i,j] = Y[j,i] for all indices. -/
theorem c10_ybus_symmetric :
    (∀ (t : TwoWindingTransformer) (b : ℝ) (e : TwtMatrixEntries),
        t.get_admittance_matrix_elements b = some e → e.Y_ab = e.Y_ba) ∧
      (∀ (t : TwoWindingTransformer) (ps tp vt b : ℝ),
        TwoWindingTransformer.get_admittance_matrix_elements
            { t with phase_shift := ps, tap_position := tp, voltage_per_tap := vt } b =
          t.get_admittance_matrix_elements b) ∧
      (∀ (net : Network) (M : ℕ → ℕ → ℂ),
        build_admittance_matrix net = Except.ok M → ∀ i j, M i j = M j i) := by
  refine ⟨twt_entries_Y_ab_eq_Y_ba, fun t ps tp vt b => rfl, ?_⟩
  intro net M h i j
  simp only [build_admittance_matrix, andThen_ok_iff] at h
  obtain ⟨M1, h1, M2, h2, M3, h3, M4, h4, M5, h5, M6, h6, M7, h7, M8, h8, M9, h9, h10⟩ := h
  have s0 : SymmM (fun _ _ => (0 : ℂ)) := fun _ _ => rfl
  have s1 := stamp_lines_symm _ _ _ _ s0 h1
  have s2 := stamp_generators_symm _ _ _ _ s1 h2
  have s3 := stamp_switches_symm _ _ _ _ s2 h3
  have s4 := stamp_two_winding_symm _ _ _ _ _ s3 h4
  have s5 := stamp_three_winding_symm _ _ _ _ s4 h5
  have s6 := stamp_loads_symm _ _ _ _ s5 h6
  have s7 := stamp_common_impedances_symm _ _ _ _ s6 h7
  have s8 := stamp_external_grids_symm _ _ _ _ s7 h8
  have s9 := stamp_voltage_sources_symm _ _ _ _ s8 h9
  exact stamp_shunts_symm _ _ _ _ s9 h10 i j

/-- Claim C10 witness: the symmetry statement applied to the assembled
two-bus line network at the off-diagonal pair (0, 1). -/
theorem c10_ybus_symmetric_witness :
    except_entry (build_admittance_matrix c3_network) 0 1 =
      except_entry (build_admittance_matrix c3_network) 1 0 := by
  have h := c10_ybus_symmetric.2.2 c3_network _ c3_build_eq 0 1
  rw [c3_build_eq]
  simpa [except_entry] using h

/-! ### Kron reduction, from reduce_matrix and KronReduction
(src/pfapi/utils/AdmittanceMatrix.py lines 136-214). -/

/-- np.where(mask == 0)[0]: the positions of the clear entries of the mask,
the non-generator bus indices. -/
def np_where_eq_zero (mask : List Bool) : List ℕ :=
  (List.range mask.length).filter (fun i => !(mask.getD i false))

/-- The list sorted_idx of reduce_matrix: Python's stable sorted with the
boolean key (bus in gen_bus_names) lists the non-generator indices first and
the generator indices second, each side keeping its original order. -/
def sorted_idx (busNames : List String) (machines : List SynchronousGenerator) :
    List ℕ :=
  np_where_eq_zero (is_gen_bus busNames machines) ++
    generator_bus_indices busNames machines

/-- Y_bus reindexed by sorted_idx on rows and columns
(Y_bus[np.ix_(sorted_idx, sorted_idx)]). -/
def Y_bus_sorted (Y : ℕ → ℕ → ℂ) (busNames : List String)
    (machines : List SynchronousGenerator) : ℕ → ℕ → ℂ :=
  fun i j => Y ((sorted_idx busNames machines).getD i 0)
    ((sorted_idx busNames machines).getD j 0)

/-- The synthetic generator block y_gen: np.eye(p) whose diagonal entry for
slot i is overwritten by gen.Y for every machine whose terminal bus equals
the slot's bus name (the last matching machine wins; unmatched slots keep
the 1 that eye placed there). -/
def y_gen (busNames : List String) (machines : List SynchronousGenerator) :
    ℕ → ℕ → ℂ :=
  fun i j =>
    if i = j then
      machines.foldl (fun acc gen =>
        if gen.busbar_to =
            some ((generator_bus_names_order busNames machines).getD i "") then
          gen.Y
        else acc) 1
    else 0

/-- The extended admittance matrix of reduce_matrix: the block matrix
[[y_gen, [0 | -y_gen]], [[0 | -y_gen]^T, Y_bus_sorted]], with the first p
rows and columns the synthetic generator-internal nodes, then the m
non-generator buses, then the p generator terminal buses in sorted order. -/
def Y_extended (Y : ℕ → ℕ → ℂ) (busNames : List String)
    (machines : List SynchronousGenerator) : ℕ → ℕ → ℂ :=
  fun a b =>
    let p := (generator_bus_indices busNames machines).length
    let m := (np_where_eq_zero (is_gen_bus busNames machines)).length
    if a < p then
      (if b < p then y_gen busNames machines a b
       else if b - p < m then 0
       else -(y_gen busNames machines a (b - p - m)))
    else
      (if b < p then (if a - p < m then 0 else -(y_gen busNames machines (a - p - m) b))
       else Y_bus_sorted Y busNames machines (a - p) (b - p))

/-- np.linalg.inv on the leading k x k block of a function-matrix, through
Mathlib's matrix inverse. Python raises LinAlgError on a singular matrix;
Mathlib's inverse returns the zero matrix there, and every use below is at a
nonsingular matrix. -/
def npInv (k : ℕ) (A : ℕ → ℕ → ℂ) : ℕ → ℕ → ℂ :=
  fun i j =>
    if h : i < k ∧ j < k then
      (Matrix.of fun a b : Fin k => A a b)⁻¹ ⟨i, h.1⟩ ⟨j, h.2⟩
    else 0

/-- KronReduction: the Schur complement Y_RR - Y_RL Y_LL^(-1) Y_LR of the
matrix split after its first p rows and columns; nL is the size of the
eliminated trailing block. -/
def KronReduction (Y : ℕ → ℕ → ℂ) (p nL : ℕ) : ℕ → ℕ → ℂ :=
  fun i j =>
    Y i j - ∑ a ∈ Finset.range nL, ∑ b ∈ Finset.range nL,
      Y i (p + a) * npInv nL (fun r c => Y (p + r) (p + c)) a b * Y (p + b) j

/-- reduce_matrix: extend the Y-bus with one synthetic node per generator
bus, Kron-eliminate all original buses, and return the reduced matrix with
the generator-bus-name ordering of its rows and columns. -/
def reduce_matrix (Y_bus : ℕ → ℕ → ℂ) (busNames : List String)
    (machines : List SynchronousGenerator) : (ℕ → ℕ → ℂ) × List String :=
  (KronReduction (Y_extended Y_bus busNames machines)
      (generator_bus_indices busNames machines).length busNames.length,
    generator_bus_names_order busNames machines)

theorem npInv_one (A : ℕ → ℕ → ℂ) : npInv 1 A 0 0 = (A 0 0)⁻¹ := by
  rw [npInv, dif_pos ⟨zero_lt_one, zero_lt_one⟩, Matrix.inv_def,
    Matrix.adjugate_fin_one, Matrix.det_fin_one]
  simp [Ring.inverse_eq_inv]

theorem reduce_single_bus (g : SynchronousGenerator) (h : g.busbar_to = some "B")
    (hY : g.Y ≠ 0) :
    (reduce_matrix (fun i j => if i = 0 ∧ j = 0 then g.Y else 0) ["B"] [g]).1 0 0 = 0 ∧
      (reduce_matrix (fun i j => if i = 0 ∧ j = 0 then g.Y else 0) ["B"] [g]).2 = ["B"] := by
  have hgen : gen_bus_names [g] = ["B"] := by simp [gen_bus_names, h]
  have hmask : is_gen_bus ["B"] [g] = [true] := by simp [is_gen_bus, hgen]
  have hgenidx : generator_bus_indices ["B"] [g] = [0] := by
    rw [generator_bus_indices, hmask]; rfl
  have hnon : np_where_eq_zero (is_gen_bus ["B"] [g]) = [] := by rw [hmask]; rfl
  have hord : generator_bus_names_order ["B"] [g] = ["B"] := by
    rw [generator_bus_names_order, hgenidx]; rfl
  have hygen : y_gen ["B"] [g] 0 0 = g.Y := by
    simp [y_gen, hord, h]
  have hsort : sorted_idx ["B"] [g] = [0] := by
    rw [sorted_idx, hnon, hgenidx]; rfl
  have hE00 : Y_extended (fun i j => if i = 0 ∧ j = 0 then g.Y else 0) ["B"] [g] 0 0
      = g.Y := by
    simp only [Y_extended, hgenidx, hnon, List.length_cons, List.length_nil]
    norm_num [hygen]
  have hE01 : Y_extended (fun i j => if i = 0 ∧ j = 0 then g.Y else 0) ["B"] [g] 0 1
      = -g.Y := by
    simp only [Y_extended, hgenidx, hnon, List.length_cons, List.length_nil]
    norm_num [hygen]
  have hE10 : Y_extended (fun i j => if i = 0 ∧ j = 0 then g.Y else 0) ["B"] [g] 1 0
      = -g.Y := by
    simp only [Y_extended, hgenidx, hnon, List.length_cons, List.length_nil]
    norm_num [hygen]
  have hE11 : Y_extended (fun i j => if i = 0 ∧ j = 0 then g.Y else 0) ["B"] [g] 1 1
      = g.Y := by
    simp only [Y_extended, hgenidx, hnon, List.length_cons, List.length_nil]
    norm_num [Y_bus_sorted, hsort]
  constructor
  · show KronReduction _ (generator_bus_indices ["B"] [g]).length (["B"] : List String).length 0 0 = 0
    rw [hgenidx]
    simp only [List.length_cons, List.length_nil, Nat.zero_add, KronReduction,
      Finset.sum_range_one]
    rw [npInv_one]
    simp only [Nat.add_zero]
    rw [hE00, hE01, hE10, hE11]
    rw [show -g.Y * (g.Y)⁻¹ * -g.Y = g.Y * (g.Y)⁻¹ * g.Y by ring,
      mul_inv_cancel₀ hY, one_mul, sub_self]
  · exact hord

/-- Claim C2 (corrected): for the single-bus single-generator network with
Y-bus [[Y_g]], reduce_matrix (which extends the matrix with one internal
node per generator and then Kron-eliminates every original bus, the
generator terminal included) returns a 1x1 matrix whose single entry is 0,
not Y_g: the terminal bus carries nothing but the generator, so the
internal node sees an open circuit. Y_g must be nonzero for the eliminated
block to be invertible (Python raises LinAlgError otherwise). -/
theorem c2_single_bus_reduction_zero (g : SynchronousGenerator)
    (h : g.busbar_to = some "B") (hY : g.Y ≠ 0) :
    (reduce_matrix (fun i j => if i = 0 ∧ j = 0 then g.Y else 0) ["B"] [g]).1 0 0 = 0 ∧
      (reduce_matrix (fun i j => if i = 0 ∧ j = 0 then g.Y else 0) ["B"] [g]).2 = ["B"] :=
  reduce_single_bus g h hY

/-- The generator of the C2 concrete instance: every rating 1, impedance
1 + 0j, so its system-base admittance is exactly 1. -/
def c2_gen : SynchronousGenerator :=
  { name := "G", busbar_to := some "B", S_rat := 1, U_rat := 1, r_a := 1,
    x_as := 0, x_d1 := 0, base_mva := 1 }

theorem c2_gen_Y : c2_gen.Y = 1 := by
  simp [SynchronousGenerator.Y, SynchronousGenerator.calculate_admittance,
    SynchronousGenerator.calculate_impedance, SynchronousGenerator.Y_base,
    SynchronousGenerator.Z_base, c2_gen]

/-- Claim C2 counterexample: the single-bus network whose generator has
admittance Y_g = 1 reduces to the 1x1 matrix [[0]], and 0 differs from the
claimed value Y_g = 1. -/
theorem c2_single_bus_counterexample :
    (reduce_matrix (fun i j => if i = 0 ∧ j = 0 then c2_gen.Y else 0) ["B"]
        [c2_gen]).1 0 0 = 0 ∧
      c2_gen.Y = 1 ∧ (0 : ℂ) ≠ 1 :=
  ⟨(reduce_single_bus c2_gen rfl (by rw [c2_gen_Y]; norm_num)).1, c2_gen_Y,
    by norm_num⟩

/-- Claim C2 witness: the amended statement applied to the concrete
generator with admittance 1. -/
theorem c2_single_bus_reduction_zero_witness :
    c2_gen.busbar_to = some "B" ∧ c2_gen.Y ≠ 0 ∧
      (reduce_matrix (fun i j => if i = 0 ∧ j = 0 then c2_gen.Y else 0) ["B"]
        [c2_gen]).1 0 0 = 0 :=
  ⟨rfl, by rw [c2_gen_Y]; norm_num,
    (c2_single_bus_reduction_zero c2_gen rfl (by rw [c2_gen_Y]; norm_num)).1⟩

/-! ### Synchronizing power calculator, from
src/pfapi/core/synchro_power_coefficients.py. The per-generator terminal
voltage V, series impedance Z and rating-normalized injections P, Q are
parameters here: the source fills them through the PowerFactory result API
(obtain_generator_voltage_and_impedance reads the load-flow dictionary and
inverts gen.Y, obtain_generator_power reads result attributes), the data
acquisition layer outside the numeric core. -/

/-- The array E of calculate_generators_internal_voltage_and_angle
(lines 90-95): E = V + Z conj(P + jQ) / conj(V). -/
def E_internal (V Z : ℕ → ℂ) (P Q : ℕ → ℝ) : ℕ → ℂ :=
  fun i => V i + Z i * (conj (((P i : ℝ) : ℂ) + ((Q i : ℝ) : ℂ) * I) / conj (V i))

/-- E_abs = np.abs(E). -/
def E_abs (V Z : ℕ → ℂ) (P Q : ℕ → ℝ) : ℕ → ℝ :=
  fun i => Complex.abs (E_internal V Z P Q i)

/-- E_angle = np.angle(E). -/
def E_angle (V Z : ℕ → ℂ) (P Q : ℕ → ℝ) : ℕ → ℝ :=
  fun i => Complex.arg (E_internal V Z P Q i)

/-- The synchronizing coefficient matrix K of
calculate_power_distribution_ratios (lines 32-34), with B = Im(Y_reduced),
G = Re(Y_reduced) and ref the outaged generator's index:
K[i,j] = |E_ref| |E_i| (B[i,j] cos(th_i - th_ref) - G[i,j] sin(th_i - th_ref)).
The NaN replacement of line 36 has no counterpart over exact reals. -/
def K_matrix (Yred : ℕ → ℕ → ℂ) (V Z : ℕ → ℂ) (P Q : ℕ → ℝ) (ref : ℕ) :
    ℕ → ℕ → ℝ :=
  fun i j => E_abs V Z P Q ref * E_abs V Z P Q i *
    ((Yred i j).im * Real.cos (E_angle V Z P Q i - E_angle V Z P Q ref) -
      (Yred i j).re * Real.sin (E_angle V Z P Q i - E_angle V Z P Q ref))

/-- The selected column K = K[:, ref] with the self entry zeroed
(lines 39-40). -/
def K_column (Yred : ℕ → ℕ → ℂ) (V Z : ℕ → ℂ) (P Q : ℕ → ℝ) (ref : ℕ) :
    ℕ → ℝ :=
  fun i => if i = ref then 0 else K_matrix Yred V Z P Q ref i ref

/-- ratios = K / np.sum(K) (line 43), the sum running over the p entries of
the column. -/
def distribution_ratios (p : ℕ) (Yred : ℕ → ℕ → ℂ) (V Z : ℕ → ℂ)
    (P Q : ℕ → ℝ) (ref : ℕ) : ℕ → ℝ :=
  fun i => K_column Yred V Z P Q ref i /
    ∑ j ∈ Finset.range p, K_column Yred V Z P Q ref j

/-- calculate_power_distribution_ratios: find the outaged generator by name
and take its terminal bus (a failed lookup raises ValueError, modelled
none), locate that bus in the generator-name ordering (.index raises when
absent, modelled none), then normalize the zeroed column ref of K. -/
def calculate_power_distribution_ratios (p : ℕ) (Y_reduced : ℕ → ℕ → ℂ)
    (names_order : List String) (machines : List SynchronousGenerator)
    (V Z : ℕ → ℂ) (P Q : ℕ → ℝ) (gen_out_name : String) : Option (ℕ → ℝ) :=
  match (machines.find? (fun gen => gen.name == gen_out_name)).bind
      (fun gen => gen.busbar_to) with
  | none => none
  | some dist_bus_name =>
    match names_order.findIdx? (fun bus => bus == dist_bus_name) with
    | none => none
    | some dist_bus => some (distribution_ratios p Y_reduced V Z P Q dist_bus)

/-- Claim C1 (confirmed): whenever the outage lookup resolves to index ref
inside the p-entry ordering and the zeroed column sums to a nonzero value,
calculate_power_distribution_ratios returns the normalized column, whose
entry at ref is exactly 0 and whose entries over all i other than ref sum
to exactly 1. -/
theorem c1_ratios_sum_to_one (p : ℕ) (Yred : ℕ → ℕ → ℂ) (names : List String)
    (machines : List SynchronousGenerator) (V Z : ℕ → ℂ) (P Q : ℕ → ℝ)
    (gen_out : String) (nm : String) (ref : ℕ)
    (hfind : (machines.find? (fun gen => gen.name == gen_out)).bind
      (fun gen => gen.busbar_to) = some nm)
    (hidx : names.findIdx? (fun bus => bus == nm) = some ref)
    (hp : ref < p)
    (hs : ∑ j ∈ Finset.range p, K_column Yred V Z P Q ref j ≠ 0) :
    calculate_power_distribution_ratios p Yred names machines V Z P Q gen_out =
        some (distribution_ratios p Yred V Z P Q ref) ∧
      distribution_ratios p Yred V Z P Q ref ref = 0 ∧
      ∑ i ∈ (Finset.range p).erase ref, distribution_ratios p Yred V Z P Q ref i
        = 1 := by
  have hmem : ref ∈ Finset.range p := Finset.mem_range.mpr hp
  have hKref : K_column Yred V Z P Q ref ref = 0 := by simp [K_column]
  refine ⟨?_, ?_, ?_⟩
  · simp only [calculate_power_distribution_ratios, hfind, hidx]
  · simp [distribution_ratios, hKref]
  · have herase : ∑ i ∈ (Finset.range p).erase ref, K_column Yred V Z P Q ref i
        = ∑ j ∈ Finset.range p, K_column Yred V Z P Q ref j := by
      rw [← Finset.sum_erase_add _ _ hmem, hKref, add_zero]
    simp only [distribution_ratios]
    rw [← Finset.sum_div, herase, div_self hs]

/-- Generator GA on bus A: concrete input for the C1 witness. -/
def c1_gen_A : SynchronousGenerator :=
  { name := "GA", busbar_to := some "A", S_rat := 1, U_rat := 1, r_a := 1,
    x_as := 0, x_d1 := 0, base_mva := 1 }

/-- Generator GB on bus B, the outaged one: concrete input for the C1
witness. -/
def c1_gen_B : SynchronousGenerator :=
  { name := "GB", busbar_to := some "B", S_rat := 1, U_rat := 1, r_a := 1,
    x_as := 0, x_d1 := 0, base_mva := 1 }

/-- A reduced 2x2 matrix with a single susceptance entry B[0,1] = 1:
concrete input for the C1 witness. -/
def c1_Yred : ℕ → ℕ → ℂ := fun i j => if i = 0 ∧ j = 1 then I else 0

theorem c1_E_one (i : ℕ) :
    E_internal (fun _ => 1) (fun _ => 0) (fun _ => 0) (fun _ => 0) i = 1 := by
  simp [E_internal]

theorem c1_K0 :
    K_column c1_Yred (fun _ => 1) (fun _ => 0) (fun _ => 0) (fun _ => 0) 1 0 = 1 := by
  simp [K_column, K_matrix, E_abs, E_angle, c1_E_one, c1_Yred]

theorem c1_Ksum :
    ∑ j ∈ Finset.range 2,
      K_column c1_Yred (fun _ => 1) (fun _ => 0) (fun _ => 0) (fun _ => 0) 1 j = 1 := by
  rw [Finset.sum_range_succ, Finset.sum_range_one, c1_K0]
  simp [K_column]

/-- Claim C1 witness: the theorem applied to the two-generator instance
with GB outaged (ref = 1), unit internal voltages and B[0,1] = 1. -/
theorem c1_ratios_sum_to_one_witness :
    calculate_power_distribution_ratios 2 c1_Yred ["A", "B"] [c1_gen_A, c1_gen_B]
        (fun _ => 1) (fun _ => 0) (fun _ => 0) (fun _ => 0) "GB" =
        some (distribution_ratios 2 c1_Yred (fun _ => 1) (fun _ => 0)
          (fun _ => 0) (fun _ => 0) 1) ∧
      distribution_ratios 2 c1_Yred (fun _ => 1) (fun _ => 0) (fun _ => 0)
        (fun _ => 0) 1 1 = 0 ∧
      ∑ i ∈ (Finset.range 2).erase 1,
        distribution_ratios 2 c1_Yred (fun _ => 1) (fun _ => 0) (fun _ => 0)
          (fun _ => 0) 1 i = 1 :=
  c1_ratios_sum_to_one 2 c1_Yred ["A", "B"] [c1_gen_A, c1_gen_B]
    (fun _ => 1) (fun _ => 0) (fun _ => 0) (fun _ => 0) "GB" "B" 1 rfl rfl
    (by norm_num) (by rw [c1_Ksum]; norm_num)
